import Mathlib

/-!
Verification of the Indicium-Supra engine lifecycle and interception-dispatch
manager (src/Indicium-Supra/Engine.h and Engine.cpp), as a shallow embedding:
the process-wide engine registry, the detoured ExitProcess termination guard,
custom-context management over an explicit heap model, and the backend
callback dispatch contract. Handles and pointers are modelled as natural
numbers with 0 standing for NULL; external effects (logging, callback
invocation, thread termination, the real ExitProcess) are modelled as
explicit traces of actions; OS primitives that can fail (SetEvent,
WaitForSingleObject, GetModuleHandleEx, malloc, CreateThread) take their
outcome from an explicit environment parameter.
-/

/-- Error codes of the public API (the INDICIUM_ERROR members used by
Engine.cpp and listed in the design document; the enum itself lives in a
public header outside the given sources). -/
inductive INDICIUM_ERROR where
  | INDICIUM_ERROR_NONE
  | INDICIUM_ERROR_ENGINE_ALREADY_ALLOCATED
  | INDICIUM_ERROR_REFERENCE_INCREMENT_FAILED
  | INDICIUM_ERROR_ENGINE_ALLOCATION_FAILED
  | INDICIUM_ERROR_CONTEXT_ALLOCATION_FAILED
  | INDICIUM_ERROR_INVALID_HMODULE_HANDLE
  | INDICIUM_ERROR_INVALID_ENGINE_HANDLE
  | INDICIUM_ERROR_CREATE_THREAD_FAILED
  deriving DecidableEq, Repr

/-- Modelled from the spec: INDICIUM_ENGINE_CONFIG is declared in a public
header that is not among the given sources. Engine.cpp reads the fields
LogFilePath, EnableLogging and EvtIndiciumGamePreExit, and Engine.h reads
EvtIndiciumGameHooked; these match the recognized options listed in the
design document. Callback pointers are modelled as optional callback
identifiers; the log-file path is modelled as an abstract identifier. -/
structure INDICIUM_ENGINE_CONFIG where
  LogFilePath : Nat
  EnableLogging : Bool
  EvtIndiciumGameHooked : Option Nat
  EvtIndiciumGamePreExit : Option Nat
  deriving DecidableEq, Repr

/-- Modelled from the spec: the per-backend event callback structures
(INDICIUM_D3D9_EVENT_CALLBACKS and the D3D10/D3D11/D3D12/ARC analogues) are
declared in public headers not among the given sources; per the design
document each is a structure of named optional callback slots. Modelled
uniformly as a map from slot index to optional callback identifier. -/
structure EVENT_CALLBACKS where
  slots : Nat → Option Nat

/-- The internal engine instance record, struct _INDICIUM_ENGINE of
Engine.h. The RenderPipeline union and CoreAudio struct hold raw backend
handles and are modelled as plain numbers. -/
structure INDICIUM_ENGINE where
  HostInstance : Nat
  GameVersion : Nat
  EngineConfig : INDICIUM_ENGINE_CONFIG
  EventsD3D9 : EVENT_CALLBACKS
  EventsD3D10 : EVENT_CALLBACKS
  EventsD3D11 : EVENT_CALLBACKS
  EventsD3D12 : EVENT_CALLBACKS
  EventsARC : EVENT_CALLBACKS
  EngineThread : Nat
  EngineCancellationEvent : Nat
  CustomContext : Nat
  RenderPipeline : Nat
  CoreAudio : Nat

/-- All-empty callback table, the state ZeroMemory leaves the tables in. -/
def emptyCallbacks : EVENT_CALLBACKS := ⟨fun _ => none⟩

/-- All-zero configuration. -/
def zeroConfig : INDICIUM_ENGINE_CONFIG := ⟨0, false, none, none⟩

/-- The engine record as ZeroMemory leaves it in IndiciumEngineCreate. -/
def zeroEngine : INDICIUM_ENGINE :=
  ⟨0, 0, zeroConfig, emptyCallbacks, emptyCallbacks, emptyCallbacks,
    emptyCallbacks, emptyCallbacks, 0, 0, 0, 0, 0⟩

/-- Windows wait-status constant WAIT_OBJECT_0. -/
def WAIT_OBJECT_0 : Nat := 0

/-- Windows wait-status constant WAIT_ABANDONED. -/
def WAIT_ABANDONED : Nat := 128

/-- Windows wait-status constant WAIT_TIMEOUT. -/
def WAIT_TIMEOUT : Nat := 258

/-- Windows wait-status constant WAIT_FAILED (DWORD 0xFFFFFFFF). -/
def WAIT_FAILED : Nat := 4294967295

/-- Observable actions performed by the detoured exit path FakeExitProcess,
listed in program order. The log actions name the distinct logger calls of
Engine.cpp; preExitCallback carries the host instance of the engine passed
to the callback; setEvent carries the cancellation event handle passed to
SetEvent; waitBegin carries the thread handle and the timeout passed to
WaitForSingleObject; terminateThread carries the thread handle passed to
TerminateThread; realExitProcess carries the exit code passed on to the
original ExitProcess. -/
inductive GuardAction where
  | logHostTerminating
  | logSetEventFailed
  | logWaitAbandoned
  | logShutdownComplete
  | logTimeoutTerminating
  | logWaitFailedError
  | logUnexpectedTerminating
  | preExitCallback (engine : Nat)
  | setEvent (event : Nat)
  | waitBegin (thread : Nat) (timeoutMs : Nat)
  | terminateThread (thread : Nat)
  | realExitProcess (uExitCode : Nat)
  deriving DecidableEq, Repr

/-- One iteration of the loop body of FakeExitProcess (Engine.cpp) for a
single registered engine: invoke the pre-exit callback if configured, set
the cancellation event (logging an error when SetEvent fails), then wait up
to 3000 ms on the worker thread and switch on the wait status. dbg models
the _DEBUG build flag guarding the WAIT_TIMEOUT case; setEventOk models the
return value of SetEvent; waitResult models the DWORD returned by
WaitForSingleObject. -/
def guardStep (dbg : Bool) (setEventOk : Bool) (waitResult : Nat)
    (engine : INDICIUM_ENGINE) : List GuardAction :=
  (if engine.EngineConfig.EvtIndiciumGamePreExit.isSome then
    [GuardAction.preExitCallback engine.HostInstance]
  else []) ++
  [GuardAction.setEvent engine.EngineCancellationEvent] ++
  (if setEventOk then [] else [GuardAction.logSetEventFailed]) ++
  [GuardAction.waitBegin engine.EngineThread 3000] ++
  (if waitResult = WAIT_ABANDONED then
    [GuardAction.logWaitAbandoned]
  else if waitResult = WAIT_OBJECT_0 then
    [GuardAction.logShutdownComplete]
  else if waitResult = WAIT_TIMEOUT then
    (if dbg then []
     else [GuardAction.terminateThread engine.EngineThread,
           GuardAction.logTimeoutTerminating])
  else if waitResult = WAIT_FAILED then
    [GuardAction.logWaitFailedError]
  else
    [GuardAction.terminateThread engine.EngineThread,
     GuardAction.logUnexpectedTerminating])

/-- The detoured ExitProcess replacement FakeExitProcess (Engine.cpp): log,
run the per-instance shutdown step for every registered engine in registry
order, then call the original ExitProcess with the unchanged exit code. -/
def FakeExitProcess (registry : List INDICIUM_ENGINE) (dbg : Bool)
    (setEventOk : INDICIUM_ENGINE → Bool) (waitResult : INDICIUM_ENGINE → Nat)
    (uExitCode : Nat) : List GuardAction :=
  (GuardAction.logHostTerminating ::
    registry.flatMap (fun e => guardStep dbg (setEventOk e) (waitResult e) e)) ++
  [GuardAction.realExitProcess uExitCode]

/-- The process-wide mutable state that Engine.cpp keeps in globals,
together with the observable side effects of the detouring and logging
collaborators: the registry g_EngineHostInstances (an association list from
host module handle to engine instance, mirroring the std::map), the number
of DetourAttach and DetourDetach operations applied to the ExitProcess
pointer, the log sinks created so far (by log-file path identifier),
whether some instance promoted its sink to the process default, and the
handles passed to CloseHandle. -/
structure GlobalState where
  g_EngineHostInstances : List (Nat × INDICIUM_ENGINE)
  detourAttachCount : Nat
  detourDetachCount : Nat
  loggersCreated : List Nat
  defaultLoggerEnabled : Bool
  closedHandles : List Nat

/-- Outcomes of the OS primitives consulted by IndiciumEngineCreate:
whether GetModuleHandleEx succeeds, whether the malloc of the engine record
succeeds, the handle returned by CreateEvent, and the handle returned by
CreateThread (0 models a NULL return, that is, CreateThread failure). -/
structure CreateEnv where
  getModuleHandleExOk : Bool
  engineMallocOk : Bool
  cancellationEventHandle : Nat
  threadHandle : Nat

/-- IndiciumEngineCreate (Engine.cpp): reject an already-registered host
module; otherwise detour ExitProcess, pin the host module, allocate and
zero the engine record, copy the configuration, create the cancellation
event, set up logging (promoting the sink to process default when
requested), spawn the worker thread, and finally publish the instance in
the registry. Returns the new state, the value stored through the Engine
out parameter, and the error code. -/
def IndiciumEngineCreate (st : GlobalState) (HostInstance : Nat)
    (EngineConfig : INDICIUM_ENGINE_CONFIG) (env : CreateEnv) :
    GlobalState × Option INDICIUM_ENGINE × INDICIUM_ERROR :=
  if (st.g_EngineHostInstances.lookup HostInstance).isSome then
    (st, none, INDICIUM_ERROR.INDICIUM_ERROR_ENGINE_ALREADY_ALLOCATED)
  else
    let st1 := { st with detourAttachCount := st.detourAttachCount + 1 }
    if ! env.getModuleHandleExOk then
      (st1, none, INDICIUM_ERROR.INDICIUM_ERROR_REFERENCE_INCREMENT_FAILED)
    else if ! env.engineMallocOk then
      (st1, none, INDICIUM_ERROR.INDICIUM_ERROR_ENGINE_ALLOCATION_FAILED)
    else
      let engine : INDICIUM_ENGINE := { zeroEngine with
        HostInstance := HostInstance
        EngineConfig := EngineConfig
        EngineCancellationEvent := env.cancellationEventHandle }
      let st2 := { st1 with
        loggersCreated := st1.loggersCreated ++ [EngineConfig.LogFilePath]
        defaultLoggerEnabled :=
          st1.defaultLoggerEnabled || EngineConfig.EnableLogging }
      let engine2 : INDICIUM_ENGINE := { engine with EngineThread := env.threadHandle }
      if engine2.EngineThread = 0 then
        (st2, none, INDICIUM_ERROR.INDICIUM_ERROR_CREATE_THREAD_FAILED)
      else
        ({ st2 with g_EngineHostInstances :=
            st2.g_EngineHostInstances ++ [(HostInstance, engine2)] },
          some engine2, INDICIUM_ERROR.INDICIUM_ERROR_NONE)

/-- IndiciumEngineDestroy (Engine.cpp): reject an unregistered host module;
otherwise detach the ExitProcess detour (unconditionally, regardless of how
many instances remain), close the cancellation event and thread handles,
and erase the registry entry. -/
def IndiciumEngineDestroy (st : GlobalState) (HostInstance : Nat) :
    GlobalState × INDICIUM_ERROR :=
  match st.g_EngineHostInstances.lookup HostInstance with
  | none => (st, INDICIUM_ERROR.INDICIUM_ERROR_INVALID_HMODULE_HANDLE)
  | some engine =>
    let st1 := { st with detourDetachCount := st.detourDetachCount + 1 }
    let st2 := { st1 with closedHandles :=
        st1.closedHandles ++ [engine.EngineCancellationEvent, engine.EngineThread] }
    ({ st2 with g_EngineHostInstances :=
        st2.g_EngineHostInstances.eraseP (fun kv => kv.1 == HostInstance) },
      INDICIUM_ERROR.INDICIUM_ERROR_NONE)

/-- Explicit heap model for the malloc, free and memcpy calls of the
custom-context functions: live blocks as an association list from address
to byte contents, a bump allocator for fresh addresses, and a log of every
pointer handed to free, in order, so that double frees stay visible.
Address 0 stands for NULL. -/
structure Heap where
  next : Nat
  live : List (Nat × List Nat)
  freeLog : List Nat
  deriving DecidableEq, Repr

/-- malloc of size bytes: on success a fresh nonzero address holding size
fresh (zero) bytes; on failure the heap is unchanged and NULL is
returned. ok models whether the allocation succeeds. -/
def Heap.mallocOp (h : Heap) (size : Nat) (ok : Bool) : Heap × Nat :=
  if ok then
    ({ h with
        next := h.next + 1
        live := (h.next, List.replicate size 0) :: h.live },
      h.next)
  else (h, 0)

/-- free of pointer p: the first live block at p (if any) is dropped, and p
is recorded in the free log. -/
def Heap.freeOp (h : Heap) (p : Nat) : Heap :=
  { h with
    live := h.live.eraseP (fun kv => kv.1 == p)
    freeLog := h.freeLog ++ [p] }

/-- Replace the contents of the first block at address p. -/
def Heap.setBlock : List (Nat × List Nat) → Nat → List Nat → List (Nat × List Nat)
  | [], _, _ => []
  | (a, b) :: rest, p, v =>
      if a = p then (a, v) :: rest else (a, b) :: Heap.setBlock rest p v

/-- memcpy of bytes into the block at destination p. -/
def Heap.memcpyOp (h : Heap) (p : Nat) (bytes : List Nat) : Heap :=
  { h with live := Heap.setBlock h.live p bytes }

/-- Contents of the first live block at address p, if one is live. -/
def Heap.lookupBlock (h : Heap) (p : Nat) : Option (List Nat) :=
  h.live.lookup p

/-- IndiciumEngineFreeCustomContext (Engine.cpp): with a NULL engine,
return InvalidEngineHandle; otherwise free the stored context pointer when
it is non-NULL. The CustomContext field itself is not reset. Returns the
engine record, the heap, and the error code. -/
def IndiciumEngineFreeCustomContext (Engine : Option INDICIUM_ENGINE)
    (h : Heap) : Option INDICIUM_ENGINE × Heap × INDICIUM_ERROR :=
  match Engine with
  | none => (none, h, INDICIUM_ERROR.INDICIUM_ERROR_INVALID_ENGINE_HANDLE)
  | some eng =>
    if eng.CustomContext ≠ 0 then
      (some eng, h.freeOp eng.CustomContext, INDICIUM_ERROR.INDICIUM_ERROR_NONE)
    else
      (some eng, h, INDICIUM_ERROR.INDICIUM_ERROR_NONE)

/-- IndiciumEngineAllocCustomContext (Engine.cpp): with a NULL engine,
return InvalidEngineHandle; otherwise call IndiciumEngineFreeCustomContext
when the stored context pointer is NULL (the guard in the source is
negated: if (!Engine->CustomContext)), store the result of malloc into the
CustomContext field, return ContextAllocationFailed when that result is
NULL, and otherwise memcpy the payload in. Context is the ContextSize-byte
region read from the source pointer, so ContextSize is Context.length;
mallocOk models whether the malloc succeeds. -/
def IndiciumEngineAllocCustomContext (Engine : Option INDICIUM_ENGINE)
    (Context : List Nat) (h : Heap) (mallocOk : Bool) :
    Option INDICIUM_ENGINE × Heap × INDICIUM_ERROR :=
  match Engine with
  | none => (none, h, INDICIUM_ERROR.INDICIUM_ERROR_INVALID_ENGINE_HANDLE)
  | some eng =>
    let h1 := if eng.CustomContext = 0 then
        (IndiciumEngineFreeCustomContext (some eng) h).2.1
      else h
    let alloc := h1.mallocOp Context.length mallocOk
    let eng1 := { eng with CustomContext := alloc.2 }
    if eng1.CustomContext = 0 then
      (some eng1, alloc.1, INDICIUM_ERROR.INDICIUM_ERROR_CONTEXT_ALLOCATION_FAILED)
    else
      (some eng1, alloc.1.memcpyOp eng1.CustomContext Context,
        INDICIUM_ERROR.INDICIUM_ERROR_NONE)

/-- IndiciumEngineGetCustomContext (Engine.cpp): NULL for a NULL engine,
the stored context pointer otherwise. -/
def IndiciumEngineGetCustomContext (Engine : Option INDICIUM_ENGINE) : Nat :=
  match Engine with
  | none => 0
  | some eng => eng.CustomContext

/-- The backend variants with a dispatch table in struct _INDICIUM_ENGINE. -/
inductive BackendVariant where
  | d3d9
  | d3d10
  | d3d11
  | d3d12
  | arc
  deriving DecidableEq, Repr

/-- The dispatch table of an engine for a backend variant. -/
def INDICIUM_ENGINE.eventsOf (engine : INDICIUM_ENGINE) :
    BackendVariant → EVENT_CALLBACKS
  | BackendVariant.d3d9 => engine.EventsD3D9
  | BackendVariant.d3d10 => engine.EventsD3D10
  | BackendVariant.d3d11 => engine.EventsD3D11
  | BackendVariant.d3d12 => engine.EventsD3D12
  | BackendVariant.arc => engine.EventsARC

/-- The INVOKE_D3D9_CALLBACK dispatch contract of Engine.h: evaluate the named slot of
the D3D9 table and call it with the given arguments when it is non-NULL,
otherwise evaluate to (void)0. The value is the list of callback
invocations performed, each a callback identifier with its arguments; the
empty list is no invocation and no result. -/
def INVOKE_D3D9_CALLBACK (engine : INDICIUM_ENGINE) (callback : Nat)
    (args : List Nat) : List (Nat × List Nat) :=
  match engine.EventsD3D9.slots callback with
  | some cb => [(cb, args)]
  | none => []

/-- The INVOKE_D3D10_CALLBACK dispatch contract of Engine.h; same contract over the
D3D10 table. -/
def INVOKE_D3D10_CALLBACK (engine : INDICIUM_ENGINE) (callback : Nat)
    (args : List Nat) : List (Nat × List Nat) :=
  match engine.EventsD3D10.slots callback with
  | some cb => [(cb, args)]
  | none => []

/-- The INVOKE_D3D11_CALLBACK dispatch contract of Engine.h; same contract over the
D3D11 table. -/
def INVOKE_D3D11_CALLBACK (engine : INDICIUM_ENGINE) (callback : Nat)
    (args : List Nat) : List (Nat × List Nat) :=
  match engine.EventsD3D11.slots callback with
  | some cb => [(cb, args)]
  | none => []

/-- The INVOKE_D3D12_CALLBACK dispatch contract of Engine.h; same contract over the
D3D12 table. -/
def INVOKE_D3D12_CALLBACK (engine : INDICIUM_ENGINE) (callback : Nat)
    (args : List Nat) : List (Nat × List Nat) :=
  match engine.EventsD3D12.slots callback with
  | some cb => [(cb, args)]
  | none => []

/-- The INVOKE_ARC_CALLBACK dispatch contract of Engine.h; same contract over the Core
Audio table. -/
def INVOKE_ARC_CALLBACK (engine : INDICIUM_ENGINE) (callback : Nat)
    (args : List Nat) : List (Nat × List Nat) :=
  match engine.EventsARC.slots callback with
  | some cb => [(cb, args)]
  | none => []

/-- Uniform entry point covering the five per-variant invocation contracts. -/
def invokeBackendCallback (engine : INDICIUM_ENGINE) (variant : BackendVariant)
    (callback : Nat) (args : List Nat) : List (Nat × List Nat) :=
  match variant with
  | BackendVariant.d3d9 => INVOKE_D3D9_CALLBACK engine callback args
  | BackendVariant.d3d10 => INVOKE_D3D10_CALLBACK engine callback args
  | BackendVariant.d3d11 => INVOKE_D3D11_CALLBACK engine callback args
  | BackendVariant.d3d12 => INVOKE_D3D12_CALLBACK engine callback args
  | BackendVariant.arc => INVOKE_ARC_CALLBACK engine callback args

/-- IndiciumEngineSetD3D9EventCallbacks (Engine.cpp): replace the whole
D3D9 table by a single assignment when the engine is non-NULL, otherwise do
nothing. -/
def IndiciumEngineSetD3D9EventCallbacks (Engine : Option INDICIUM_ENGINE)
    (Callbacks : EVENT_CALLBACKS) : Option INDICIUM_ENGINE :=
  match Engine with
  | none => none
  | some eng => some { eng with EventsD3D9 := Callbacks }

/-- Selects the call to the original ExitProcess in a guard trace. -/
def isRealExit : GuardAction → Bool
  | GuardAction.realExitProcess _ => true
  | _ => false

/-- Selects the pre-exit callback, cancellation-signal and wait-begin
actions in a guard trace. -/
def isLifecycle : GuardAction → Bool
  | GuardAction.preExitCallback _ => true
  | GuardAction.setEvent _ => true
  | GuardAction.waitBegin _ _ => true
  | _ => false

/-- Selects the cancellation-signal and wait-begin actions. -/
def isCancelWait : GuardAction → Bool
  | GuardAction.setEvent _ => true
  | GuardAction.waitBegin _ _ => true
  | _ => false

lemma guardStep_filter_lifecycle (dbg setEventOk : Bool) (w : Nat)
    (e : INDICIUM_ENGINE) :
    (guardStep dbg setEventOk w e).filter isLifecycle =
      (if e.EngineConfig.EvtIndiciumGamePreExit.isSome then
        [GuardAction.preExitCallback e.HostInstance] else []) ++
      [GuardAction.setEvent e.EngineCancellationEvent,
       GuardAction.waitBegin e.EngineThread 3000] := by
  unfold guardStep
  split_ifs <;> simp [isLifecycle, List.filter_append]

lemma guardStep_filter_cancelWait (dbg setEventOk : Bool) (w : Nat)
    (e : INDICIUM_ENGINE) :
    (guardStep dbg setEventOk w e).filter isCancelWait =
      [GuardAction.setEvent e.EngineCancellationEvent,
       GuardAction.waitBegin e.EngineThread 3000] := by
  unfold guardStep
  split_ifs <;> simp [isCancelWait, List.filter_append]

lemma guardStep_filter_realExit (dbg setEventOk : Bool) (w : Nat)
    (e : INDICIUM_ENGINE) :
    (guardStep dbg setEventOk w e).filter isRealExit = [] := by
  unfold guardStep
  split_ifs <;> simp [isRealExit, List.filter_append]

lemma sublist_flatMap_of_mem {α β : Type} (f : α → List β) {l : List α}
    {a : α} (h : a ∈ l) : (f a).Sublist (l.flatMap f) := by
  induction l with
  | nil => cases h
  | cons x xs ih =>
    rw [List.flatMap_cons]
    rcases List.mem_cons.mp h with rfl | hx
    · exact List.sublist_append_left (f a) (xs.flatMap f)
    · exact (ih hx).trans (List.sublist_append_right (f x) (xs.flatMap f))

lemma guardStep_sublist_fake (registry : List INDICIUM_ENGINE) (dbg : Bool)
    (seOk : INDICIUM_ENGINE → Bool) (wres : INDICIUM_ENGINE → Nat)
    (code : Nat) {e : INDICIUM_ENGINE} (he : e ∈ registry) :
    (guardStep dbg (seOk e) (wres e) e).Sublist
      (FakeExitProcess registry dbg seOk wres code) := by
  unfold FakeExitProcess
  exact ((sublist_flatMap_of_mem
      (fun x => guardStep dbg (seOk x) (wres x) x) he).cons
        GuardAction.logHostTerminating).trans
    (List.sublist_append_left
      (GuardAction.logHostTerminating ::
        registry.flatMap fun x => guardStep dbg (seOk x) (wres x) x)
      [GuardAction.realExitProcess code])

lemma flatMap_guardStep_filter_realExit (registry : List INDICIUM_ENGINE)
    (dbg : Bool) (seOk : INDICIUM_ENGINE → Bool)
    (wres : INDICIUM_ENGINE → Nat) :
    (registry.flatMap fun e => guardStep dbg (seOk e) (wres e) e).filter
      isRealExit = [] := by
  induction registry with
  | nil => rfl
  | cons x xs ih =>
    rw [List.flatMap_cons, List.filter_append, ih, guardStep_filter_realExit]
    rfl

/-- C1: in FakeExitProcess, for every registered engine the pre-exit
callback (when configured) occurs strictly before the cancellation event of
that instance is set, which occurs strictly before the bounded wait on its
worker thread begins (the three actions occur as a subsequence of the
trace, in that order); and the original ExitProcess is called exactly once,
with the unchanged exit code, as the last action of the trace, hence only
after every registered instance has been processed. -/
theorem fakeExitProcess_ordering (registry : List INDICIUM_ENGINE)
    (dbg : Bool) (seOk : INDICIUM_ENGINE → Bool)
    (wres : INDICIUM_ENGINE → Nat) (code : Nat) :
    (∀ e ∈ registry,
      (e.EngineConfig.EvtIndiciumGamePreExit.isSome = true →
        List.Sublist
          [GuardAction.preExitCallback e.HostInstance,
           GuardAction.setEvent e.EngineCancellationEvent,
           GuardAction.waitBegin e.EngineThread 3000]
          (FakeExitProcess registry dbg seOk wres code)) ∧
      List.Sublist
        [GuardAction.setEvent e.EngineCancellationEvent,
         GuardAction.waitBegin e.EngineThread 3000]
        (FakeExitProcess registry dbg seOk wres code)) ∧
    (FakeExitProcess registry dbg seOk wres code).filter isRealExit =
      [GuardAction.realExitProcess code] ∧
    (FakeExitProcess registry dbg seOk wres code).getLast? =
      some (GuardAction.realExitProcess code) := by
  refine ⟨?_, ?_, ?_⟩
  · intro e he
    have hsub := guardStep_sublist_fake registry dbg seOk wres code he
    constructor
    · intro hp
      have hfil := @List.filter_sublist GuardAction isLifecycle
        (guardStep dbg (seOk e) (wres e) e)
      rw [guardStep_filter_lifecycle, if_pos hp] at hfil
      exact (by simpa using hfil :
        List.Sublist [GuardAction.preExitCallback e.HostInstance,
          GuardAction.setEvent e.EngineCancellationEvent,
          GuardAction.waitBegin e.EngineThread 3000]
          (guardStep dbg (seOk e) (wres e) e)).trans hsub
    · have hfil := @List.filter_sublist GuardAction isCancelWait
        (guardStep dbg (seOk e) (wres e) e)
      rw [guardStep_filter_cancelWait] at hfil
      exact hfil.trans hsub
  · unfold FakeExitProcess
    rw [List.filter_append]
    rw [show (GuardAction.logHostTerminating ::
      registry.flatMap fun e => guardStep dbg (seOk e) (wres e) e).filter
        isRealExit =
      (registry.flatMap fun e => guardStep dbg (seOk e) (wres e) e).filter
        isRealExit from rfl]
    rw [flatMap_guardStep_filter_realExit]
    rfl
  · unfold FakeExitProcess
    exact List.getLast?_concat _

/-- A concrete engine instance used in witnesses: host module 1,
cancellation event handle 2, worker thread handle 3, a configured pre-exit
callback. -/
def witnessEngine : INDICIUM_ENGINE :=
  { zeroEngine with
    HostInstance := 1
    EngineConfig := { zeroConfig with EvtIndiciumGamePreExit := some 7 }
    EngineCancellationEvent := 2
    EngineThread := 3 }

/-- Witness for C1 at a concrete registry of one engine, a successful
SetEvent, a clean wait, and exit code 42. -/
theorem fakeExitProcess_ordering_witness :
    witnessEngine.EngineConfig.EvtIndiciumGamePreExit.isSome = true ∧
    List.Sublist
      [GuardAction.preExitCallback witnessEngine.HostInstance,
       GuardAction.setEvent witnessEngine.EngineCancellationEvent,
       GuardAction.waitBegin witnessEngine.EngineThread 3000]
      (FakeExitProcess [witnessEngine] false (fun _ => true) (fun _ => 0) 42) ∧
    (FakeExitProcess [witnessEngine] false (fun _ => true) (fun _ => 0)
      42).filter isRealExit = [GuardAction.realExitProcess 42] ∧
    (FakeExitProcess [witnessEngine] false (fun _ => true) (fun _ => 0)
      42).getLast? = some (GuardAction.realExitProcess 42) := by
  have h := fakeExitProcess_ordering [witnessEngine] false (fun _ => true)
    (fun _ => 0) 42
  exact ⟨rfl, (h.1 witnessEngine (List.mem_singleton.mpr rfl)).1 rfl,
    h.2.1, h.2.2⟩

/-- C6 amended: in the per-instance wait step, an unrecognized wait status
forcibly terminates the worker thread and logs an error, but a failing wait
call (WAIT_FAILED) only logs an error and does not terminate the worker
thread. -/
theorem guardStep_waitFailed_vs_unrecognized (dbg setEventOk : Bool)
    (e : INDICIUM_ENGINE) (w : Nat) :
    (w = WAIT_FAILED →
      GuardAction.terminateThread e.EngineThread ∉
        guardStep dbg setEventOk w e ∧
      GuardAction.logWaitFailedError ∈ guardStep dbg setEventOk w e) ∧
    ((w ≠ WAIT_ABANDONED ∧ w ≠ WAIT_OBJECT_0 ∧ w ≠ WAIT_TIMEOUT ∧
        w ≠ WAIT_FAILED) →
      GuardAction.terminateThread e.EngineThread ∈
        guardStep dbg setEventOk w e ∧
      GuardAction.logUnexpectedTerminating ∈ guardStep dbg setEventOk w e) := by
  constructor
  · rintro rfl
    unfold guardStep
    split_ifs <;>
      simp_all [WAIT_FAILED, WAIT_ABANDONED, WAIT_OBJECT_0, WAIT_TIMEOUT]
  · rintro ⟨h1, h2, h3, h4⟩
    unfold guardStep
    split_ifs <;>
      simp_all [WAIT_FAILED, WAIT_ABANDONED, WAIT_OBJECT_0, WAIT_TIMEOUT]

/-- Witness for C6 amended: concrete engine, WAIT_FAILED on one side and
the unrecognized status 999 on the other. -/
theorem guardStep_waitFailed_vs_unrecognized_witness :
    (GuardAction.terminateThread witnessEngine.EngineThread ∉
       guardStep false true WAIT_FAILED witnessEngine ∧
     GuardAction.logWaitFailedError ∈
       guardStep false true WAIT_FAILED witnessEngine) ∧
    (GuardAction.terminateThread witnessEngine.EngineThread ∈
       guardStep false true 999 witnessEngine ∧
     GuardAction.logUnexpectedTerminating ∈
       guardStep false true 999 witnessEngine) :=
  ⟨(guardStep_waitFailed_vs_unrecognized false true witnessEngine
      WAIT_FAILED).1 rfl,
   (guardStep_waitFailed_vs_unrecognized false true witnessEngine 999).2
      ⟨by decide, by decide, by decide, by decide⟩⟩

/-- Counterexample for C6 as stated: when the wait call itself fails
(WAIT_FAILED), the loop body of FakeExitProcess logs an error but does not
forcibly terminate the worker thread; only the unrecognized-status default
case terminates it. -/
theorem guardStep_waitFailed_counterexample :
    GuardAction.terminateThread witnessEngine.EngineThread ∉
      guardStep false true WAIT_FAILED witnessEngine ∧
    GuardAction.logWaitFailedError ∈
      guardStep false true WAIT_FAILED witnessEngine := by
  decide

/-- C2: a create call for an already-registered host module returns
EngineAlreadyAllocated and changes nothing: the whole global state — in
particular the registry, the stored instance and the detour counters — is
returned unchanged, and no engine is handed out. -/
theorem create_already_allocated (st : GlobalState) (HostInstance : Nat)
    (cfg : INDICIUM_ENGINE_CONFIG) (env : CreateEnv)
    (hreg : (st.g_EngineHostInstances.lookup HostInstance).isSome = true) :
    IndiciumEngineCreate st HostInstance cfg env =
      (st, none, INDICIUM_ERROR.INDICIUM_ERROR_ENGINE_ALREADY_ALLOCATED) ∧
    (IndiciumEngineCreate st HostInstance cfg env).1.g_EngineHostInstances =
      st.g_EngineHostInstances ∧
    (IndiciumEngineCreate st HostInstance cfg env).1.detourAttachCount =
      st.detourAttachCount := by
  have h : IndiciumEngineCreate st HostInstance cfg env =
      (st, none, INDICIUM_ERROR.INDICIUM_ERROR_ENGINE_ALREADY_ALLOCATED) := by
    unfold IndiciumEngineCreate
    rw [if_pos hreg]
  exact ⟨h, by rw [h], by rw [h]⟩

/-- A concrete one-entry registry state used in witnesses. -/
def oneInstanceState : GlobalState := ⟨[(1, witnessEngine)], 1, 0, [0], false, []⟩

/-- A create environment in which every OS primitive succeeds. -/
def okEnv : CreateEnv := ⟨true, true, 8, 9⟩

/-- Witness for C2: creating again for host module 1, which
oneInstanceState already registers, changes nothing. -/
theorem create_already_allocated_witness :
    (oneInstanceState.g_EngineHostInstances.lookup 1).isSome = true ∧
    (IndiciumEngineCreate oneInstanceState 1 zeroConfig okEnv =
      (oneInstanceState, none,
        INDICIUM_ERROR.INDICIUM_ERROR_ENGINE_ALREADY_ALLOCATED) ∧
    (IndiciumEngineCreate oneInstanceState 1 zeroConfig
      okEnv).1.g_EngineHostInstances =
        oneInstanceState.g_EngineHostInstances ∧
    (IndiciumEngineCreate oneInstanceState 1 zeroConfig
      okEnv).1.detourAttachCount = oneInstanceState.detourAttachCount) :=
  ⟨rfl, create_already_allocated oneInstanceState 1 zeroConfig okEnv rfl⟩

/-- The empty process state at module load. -/
def emptyState : GlobalState := ⟨[], 0, 0, [], false, []⟩

/-- Counterexample for C5 as stated: two successful create calls for the
distinct host modules 1 and 2 apply DetourAttach to the ExitProcess pointer
once each — after the second create the detour has been attached twice, so
installation is not once-per-process. -/
theorem create_attach_counterexample :
    (IndiciumEngineCreate emptyState 1 zeroConfig okEnv).2.2 =
      INDICIUM_ERROR.INDICIUM_ERROR_NONE ∧
    (IndiciumEngineCreate emptyState 1 zeroConfig okEnv).1.detourAttachCount
      = 1 ∧
    (IndiciumEngineCreate (IndiciumEngineCreate emptyState 1 zeroConfig
      okEnv).1 2 zeroConfig okEnv).2.2 =
        INDICIUM_ERROR.INDICIUM_ERROR_NONE ∧
    (IndiciumEngineCreate (IndiciumEngineCreate emptyState 1 zeroConfig
      okEnv).1 2 zeroConfig okEnv).1.detourAttachCount = 2 :=
  ⟨rfl, rfl, rfl, rfl⟩

/-- C5 amended: every create call for a not-yet-registered host module
applies DetourAttach to the ExitProcess pointer again, whether or not the
rest of the call succeeds; the attachment is per create call, not only on
the first call. -/
theorem create_attaches_every_time (st : GlobalState) (HostInstance : Nat)
    (cfg : INDICIUM_ENGINE_CONFIG) (env : CreateEnv)
    (hfree : (st.g_EngineHostInstances.lookup HostInstance).isSome = false) :
    (IndiciumEngineCreate st HostInstance cfg env).1.detourAttachCount =
      st.detourAttachCount + 1 := by
  unfold IndiciumEngineCreate
  rw [if_neg (by simp [hfree])]
  dsimp only
  split_ifs <;> rfl

/-- Witness for C5 amended: the first create on the empty state attaches
once. -/
theorem create_attaches_every_time_witness :
    (emptyState.g_EngineHostInstances.lookup 1).isSome = false ∧
    (IndiciumEngineCreate emptyState 1 zeroConfig okEnv).1.detourAttachCount
      = emptyState.detourAttachCount + 1 :=
  ⟨rfl, create_attaches_every_time emptyState 1 zeroConfig okEnv rfl⟩

/-- A second concrete engine for host module 4. -/
def engineM4 : INDICIUM_ENGINE :=
  { zeroEngine with
    HostInstance := 4
    EngineCancellationEvent := 5
    EngineThread := 6 }

/-- A state with two registered instances (host modules 1 and 4). -/
def twoInstanceState : GlobalState :=
  ⟨[(1, witnessEngine), (4, engineM4)], 2, 0, [0, 0], false, []⟩

/-- C3, evaluated at the failing input: with the two instances of
twoInstanceState registered, destroying host module 1 succeeds and applies
DetourDetach to the ExitProcess pointer even though host module 4 is still
registered afterwards — the interception is removed on every destroy, not
only on the last one. -/
theorem destroy_detaches_before_last :
    (IndiciumEngineDestroy twoInstanceState 1).2 =
      INDICIUM_ERROR.INDICIUM_ERROR_NONE ∧
    (IndiciumEngineDestroy twoInstanceState 1).1.detourDetachCount =
      twoInstanceState.detourDetachCount + 1 ∧
    ((IndiciumEngineDestroy twoInstanceState
      1).1.g_EngineHostInstances.lookup 4).isSome = true :=
  ⟨rfl, rfl, rfl⟩

/-- A concrete engine whose stored custom context is the live pointer 5. -/
def ctxEngine : INDICIUM_ENGINE := { zeroEngine with CustomContext := 5 }

/-- A concrete heap: next fresh address 9, one live block at 5 holding the
three bytes 1, 2, 3, nothing freed yet. -/
def ctxHeap : Heap := ⟨9, [(5, [1, 2, 3])], []⟩

/-- C4, evaluated at the failing input: ctxEngine already stores the
context 5 (live, holding bytes 1, 2, 3), yet allocating a new two-byte
context succeeds without ever freeing the old block — the free log stays
empty and block 5 stays live, because the guard in the source frees the
existing context only when it is absent. -/
theorem alloc_does_not_free_existing :
    (IndiciumEngineAllocCustomContext (some ctxEngine) [7, 8] ctxHeap
      true).2.2 = INDICIUM_ERROR.INDICIUM_ERROR_NONE ∧
    ((IndiciumEngineAllocCustomContext (some ctxEngine) [7, 8] ctxHeap
      true).2.1).freeLog = [] ∧
    ((IndiciumEngineAllocCustomContext (some ctxEngine) [7, 8] ctxHeap
      true).2.1).lookupBlock 5 = some [1, 2, 3] ∧
    IndiciumEngineGetCustomContext
      (IndiciumEngineAllocCustomContext (some ctxEngine) [7, 8] ctxHeap
        true).1 = 9 :=
  ⟨rfl, rfl, rfl, rfl⟩

/-- C7: a successful allocCustomContext with payload Context stores a fresh
pointer whose block holds exactly the bytes of Context, and
getCustomContext returns that pointer, so reading the block it points to
yields the payload. -/
theorem allocCustomContext_then_get (eng : INDICIUM_ENGINE) (h : Heap)
    (Context : List Nat) (hnz : h.next ≠ 0) :
    (IndiciumEngineAllocCustomContext (some eng) Context h true).2.2 =
      INDICIUM_ERROR.INDICIUM_ERROR_NONE ∧
    ((IndiciumEngineAllocCustomContext (some eng) Context h
      true).2.1).lookupBlock
        (IndiciumEngineGetCustomContext
          (IndiciumEngineAllocCustomContext (some eng) Context h true).1) =
      some Context := by
  have hfree : (if eng.CustomContext = 0 then
      (IndiciumEngineFreeCustomContext (some eng) h).2.1 else h) = h := by
    unfold IndiciumEngineFreeCustomContext
    split_ifs with hc
    · simp [hc]
    · rfl
  unfold IndiciumEngineAllocCustomContext
  dsimp only
  rw [hfree]
  simp [Heap.mallocOp, Heap.memcpyOp, Heap.setBlock, Heap.lookupBlock,
    IndiciumEngineGetCustomContext, hnz, List.lookup]

/-- The heap right after process start: nothing allocated, first fresh
address 1. -/
def emptyHeap : Heap := ⟨1, [], []⟩

/-- Witness for C7: allocating the two-byte payload 4, 5 on the empty heap
and reading it back through getCustomContext. -/
theorem allocCustomContext_then_get_witness :
    emptyHeap.next ≠ 0 ∧
    ((IndiciumEngineAllocCustomContext (some zeroEngine) [4, 5] emptyHeap
      true).2.2 = INDICIUM_ERROR.INDICIUM_ERROR_NONE ∧
    ((IndiciumEngineAllocCustomContext (some zeroEngine) [4, 5] emptyHeap
      true).2.1).lookupBlock
        (IndiciumEngineGetCustomContext
          (IndiciumEngineAllocCustomContext (some zeroEngine) [4, 5]
            emptyHeap true).1) = some [4, 5]) :=
  ⟨by decide, allocCustomContext_then_get zeroEngine emptyHeap [4, 5]
    (by decide)⟩

/-- C9: freeCustomContext on an instance holding a context releases the
payload (the pointer is handed to free) but returns the engine record
unchanged, so the CustomContext field still holds the released pointer;
getCustomContext then returns that stale pointer, and a second
freeCustomContext hands the very same pointer to free again. -/
theorem freeCustomContext_not_idempotent (eng : INDICIUM_ENGINE) (h : Heap)
    (hc : eng.CustomContext ≠ 0) :
    (IndiciumEngineFreeCustomContext (some eng) h).1 = some eng ∧
    (IndiciumEngineFreeCustomContext (some eng) h).2.2 =
      INDICIUM_ERROR.INDICIUM_ERROR_NONE ∧
    ((IndiciumEngineFreeCustomContext (some eng) h).2.1).freeLog =
      h.freeLog ++ [eng.CustomContext] ∧
    IndiciumEngineGetCustomContext
      (IndiciumEngineFreeCustomContext (some eng) h).1 =
      eng.CustomContext ∧
    ((IndiciumEngineFreeCustomContext
        (IndiciumEngineFreeCustomContext (some eng) h).1
        ((IndiciumEngineFreeCustomContext (some eng) h).2.1)).2.1).freeLog =
      h.freeLog ++ [eng.CustomContext, eng.CustomContext] := by
  unfold IndiciumEngineFreeCustomContext IndiciumEngineGetCustomContext
    Heap.freeOp
  simp [hc]

/-- Witness for C9 at ctxEngine and ctxHeap, whose stored context 5 is
live. -/
theorem freeCustomContext_not_idempotent_witness :
    ctxEngine.CustomContext ≠ 0 ∧
    ((IndiciumEngineFreeCustomContext (some ctxEngine) ctxHeap).1 =
      some ctxEngine ∧
    (IndiciumEngineFreeCustomContext (some ctxEngine) ctxHeap).2.2 =
      INDICIUM_ERROR.INDICIUM_ERROR_NONE ∧
    ((IndiciumEngineFreeCustomContext (some ctxEngine) ctxHeap).2.1).freeLog
      = ctxHeap.freeLog ++ [ctxEngine.CustomContext] ∧
    IndiciumEngineGetCustomContext
      (IndiciumEngineFreeCustomContext (some ctxEngine) ctxHeap).1 =
      ctxEngine.CustomContext ∧
    ((IndiciumEngineFreeCustomContext
        (IndiciumEngineFreeCustomContext (some ctxEngine) ctxHeap).1
        ((IndiciumEngineFreeCustomContext (some ctxEngine)
          ctxHeap).2.1)).2.1).freeLog =
      ctxHeap.freeLog ++ [ctxEngine.CustomContext, ctxEngine.CustomContext]) :=
  ⟨by decide, freeCustomContext_not_idempotent ctxEngine ctxHeap (by decide)⟩

/-- C10: when the malloc inside allocCustomContext fails on an instance
that already stores a context, the call returns ContextAllocationFailed but
has already overwritten the CustomContext field with the NULL result; the
heap is untouched — in particular nothing was freed, so the old payload
block is lost while still live — and getCustomContext now returns NULL. -/
theorem allocCustomContext_failure_clobbers (eng : INDICIUM_ENGINE)
    (h : Heap) (Context : List Nat) (hc : eng.CustomContext ≠ 0) :
    (IndiciumEngineAllocCustomContext (some eng) Context h false).2.2 =
      INDICIUM_ERROR.INDICIUM_ERROR_CONTEXT_ALLOCATION_FAILED ∧
    (IndiciumEngineAllocCustomContext (some eng) Context h false).1 =
      some { eng with CustomContext := 0 } ∧
    (IndiciumEngineAllocCustomContext (some eng) Context h false).2.1 = h ∧
    ((IndiciumEngineAllocCustomContext (some eng) Context h
      false).2.1).freeLog = h.freeLog ∧
    IndiciumEngineGetCustomContext
      (IndiciumEngineAllocCustomContext (some eng) Context h false).1 = 0 := by
  unfold IndiciumEngineAllocCustomContext IndiciumEngineGetCustomContext
    Heap.mallocOp
  simp [hc]

/-- Witness for C10 at ctxEngine and ctxHeap with a failing malloc. -/
theorem allocCustomContext_failure_clobbers_witness :
    ctxEngine.CustomContext ≠ 0 ∧
    ((IndiciumEngineAllocCustomContext (some ctxEngine) [7] ctxHeap
      false).2.2 = INDICIUM_ERROR.INDICIUM_ERROR_CONTEXT_ALLOCATION_FAILED ∧
    (IndiciumEngineAllocCustomContext (some ctxEngine) [7] ctxHeap false).1 =
      some { ctxEngine with CustomContext := 0 } ∧
    (IndiciumEngineAllocCustomContext (some ctxEngine) [7] ctxHeap false).2.1
      = ctxHeap ∧
    ((IndiciumEngineAllocCustomContext (some ctxEngine) [7] ctxHeap
      false).2.1).freeLog = ctxHeap.freeLog ∧
    IndiciumEngineGetCustomContext
      (IndiciumEngineAllocCustomContext (some ctxEngine) [7] ctxHeap
        false).1 = 0) :=
  ⟨by decide, allocCustomContext_failure_clobbers ctxEngine ctxHeap [7]
    (by decide)⟩

/-- C8: for every engine, backend variant, callback slot and argument list,
invoking the backend event performs no callback invocation (and produces no
error or result) when the slot is empty, and performs exactly the one
invocation of the stored callback with the given arguments when the slot is
filled. -/
theorem invoke_callback_dispatch (engine : INDICIUM_ENGINE)
    (variant : BackendVariant) (callback : Nat) (args : List Nat) :
    ((engine.eventsOf variant).slots callback = none →
      invokeBackendCallback engine variant callback args = []) ∧
    (∀ cb, (engine.eventsOf variant).slots callback = some cb →
      invokeBackendCallback engine variant callback args = [(cb, args)]) := by
  cases variant <;>
    refine ⟨fun hn => ?_, fun cb hcb => ?_⟩ <;>
      simp_all [invokeBackendCallback, INVOKE_D3D9_CALLBACK,
        INVOKE_D3D10_CALLBACK, INVOKE_D3D11_CALLBACK, INVOKE_D3D12_CALLBACK,
        INVOKE_ARC_CALLBACK, INDICIUM_ENGINE.eventsOf]

/-- A concrete engine whose D3D9 table has callback 11 in slot 0 and every
other slot empty. -/
def cbEngine : INDICIUM_ENGINE :=
  { zeroEngine with EventsD3D9 := ⟨fun s => if s = 0 then some 11 else none⟩ }

/-- Witness for C8: on cbEngine, invoking D3D9 slot 0 performs the single
invocation of callback 11 with the given argument, and invoking the empty
D3D9 slot 1 performs nothing. -/
theorem invoke_callback_dispatch_witness :
    invokeBackendCallback cbEngine BackendVariant.d3d9 0 [4] = [(11, [4])] ∧
    invokeBackendCallback cbEngine BackendVariant.d3d9 1 [4] = [] :=
  ⟨(invoke_callback_dispatch cbEngine BackendVariant.d3d9 0 [4]).2 11 rfl,
   (invoke_callback_dispatch cbEngine BackendVariant.d3d9 1 [4]).1 rfl⟩
